import Mathlib

/-!
Shallow embedding of the bill-intelligence pipeline of the AI-Billing-Concierge
repository, together with theorems settling the frozen claims about it.

Conventions of the embedding:
* JS finite numbers are modelled as rationals (`ℚ`).  A JS division whose
  denominator is zero produces a non-finite value (`NaN` for `0/0`, `±Infinity`
  otherwise); everywhere the embedded code can divide by zero we use
  `jsDiv`, which returns `none` for those non-finite outcomes.  Every numeric
  comparison the source performs on such a value (`Math.abs(x) > t`, `x > t`)
  is false in JS when `x` is `NaN`; the call sites below only ever compare a
  possibly-`none` value after a `0/0` division, so mapping `none` to a false
  comparison is faithful.
* A JS `x || y` on numbers yields `y` exactly when `x` is falsy (`0` or
  absent); `jsOr` mirrors this.  Numeric record fields that the source only
  ever reads through `||` or a truthiness test are modelled as plain rationals
  with `0` standing for an absent field, which JS treats identically there.
* `Array.prototype.sort(comparefn)`: per ECMAScript (ES2019 and later) the
  sort is stable and `SortCompare` coerces a `NaN` comparator result to `+0`.
  For a consistent comparator the stable sorted result is unique, so we model
  it with a stable insertion sort `jsSortStable` over the comparator with the
  `NaN ↦ 0` coercion already applied.
-/

namespace Billing

/-- JS division; `none` stands for the non-finite result (`NaN`/`±Infinity`)
of dividing by zero. -/
def jsDiv (a b : ℚ) : Option ℚ := if b = 0 then none else some (a / b)

/-- JS `x || y` on numbers: `y` when `x` is falsy (zero / absent), else `x`. -/
def jsOr (x y : ℚ) : ℚ := if x = 0 then y else x

/-- Insert `x` into `l`, keeping it before the first element it does not
compare strictly greater than — the insertion step of a stable sort. -/
def jsInsert (c : α → α → ℚ) (x : α) : List α → List α
  | [] => [x]
  | y :: ys => if c x y ≤ 0 then x :: y :: ys else y :: jsInsert c x ys

/-- Stable sort by a JS comparator (with `NaN` results already coerced to 0,
as ES `SortCompare` does).  For a consistent comparator this is the unique
behaviour ECMAScript prescribes for `Array.prototype.sort`. -/
def jsSortStable (c : α → α → ℚ) : List α → List α
  | [] => []
  | x :: xs => jsInsert c x (jsSortStable c xs)

/-! ## Data model (the fields read by the embedded functions) -/

/-- `billData.usage`.  `peakKwh`/`offPeakKwh` are only read through JS
truthiness tests or `|| fallback`, for which an absent field and `0` behave
identically, so absence is modelled as `0`. -/
structure Usage where
  totalKwh : ℚ
  peakKwh : ℚ
  offPeakKwh : ℚ
deriving DecidableEq

/-- `billData.charges` (only `totalAmount` is read by the embedded code). -/
structure Charges where
  totalAmount : ℚ
deriving DecidableEq

/-- `billData.comparisons.previousMonth` snapshot. -/
structure Snapshot where
  usage : ℚ
  amount : ℚ
deriving DecidableEq

/-- `billData.comparisons`; `previousMonth` may be absent. -/
structure Comparisons where
  previousMonth : Option Snapshot
deriving DecidableEq

/-- A bill record as consumed by the analyzers; `comparisons` may be absent
(the routes always supply `usage` and `charges` objects, and every embedded
function dereferences them unconditionally). -/
structure BillData where
  usage : Usage
  charges : Charges
  comparisons : Option Comparisons
deriving DecidableEq

/-! ## Anomaly detector (`services/anomalyDetector.js`) -/

inductive Severity where
  | mild
  | moderate
  | severe
deriving DecidableEq

structure Thresholds where
  mild : ℚ
  moderate : ℚ
  severe : ℚ

/-- `this.thresholds.usage` -/
def usageThresholds : Thresholds := ⟨15, 25, 40⟩

/-- `this.thresholds.cost` -/
def costThresholds : Thresholds := ⟨20, 35, 50⟩

/-- `getSeverity(value, thresholds)` -/
def getSeverity (value : ℚ) (t : Thresholds) : Severity :=
  if t.severe ≤ value then .severe
  else if t.moderate ≤ value then .moderate
  else .mild

structure Anomaly where
  type : String
  severity : Severity
  title : String
  impact : ℚ
  recommendations : List String
deriving DecidableEq

/-- `getUsageRecommendations(change)` -/
def getUsageRecommendations (change : ℚ) : List String :=
  if 0 < change then
    ["Check for malfunctioning appliances",
     "Review HVAC system efficiency",
     "Monitor daily usage patterns",
     "Consider energy audit"]
  else
    ["Great job on reducing consumption!",
     "Continue current practices",
     "Monitor for any service issues"]

/-- `getCostRecommendations(change)` -/
def getCostRecommendations (change : ℚ) : List String :=
  if 0 < change then
    ["Review rate changes",
     "Analyze usage patterns",
     "Check for billing errors",
     "Consider dispute if necessary"]
  else
    ["Excellent cost management!",
     "Review what caused the decrease",
     "Apply successful strategies consistently"]

/-- `getPeakRecommendations()` -/
def getPeakRecommendations : List String :=
  ["Shift appliance usage to off-peak hours",
   "Use programmable timers",
   "Consider time-of-use rate plans",
   "Optimize heating/cooling schedules"]

/-- The `previous` of `detectUsageAnomalies`:
`billData.comparisons.previousMonth?.usage || current`. -/
def usagePrevious (u : Usage) (cmp : Comparisons) : ℚ :=
  match cmp.previousMonth with
  | some p => jsOr p.usage u.totalKwh
  | none => u.totalKwh

/-- The `change` of `detectUsageAnomalies`:
`((current − previous) / previous) × 100`.  `none` is the `NaN` outcome: the
denominator `previous` is zero only via the fallback `previous = current = 0`,
which makes the numerator zero as well, so `0/0` is the only non-finite case
and every subsequent JS comparison on it is false. -/
def usageChange (u : Usage) (cmp : Comparisons) : Option ℚ :=
  (jsDiv (u.totalKwh - usagePrevious u cmp) (usagePrevious u cmp)).map (· * 100)

/-- `detectUsageAnomalies(billData)`: called only when `billData.comparisons`
is present. -/
def detectUsageAnomalies (u : Usage) (cmp : Comparisons) : List Anomaly :=
  match usageChange u cmp with
  | none => []
  | some change =>
      if usageThresholds.mild < |change| then
        [{ type := "usage_anomaly"
           severity := getSeverity |change| usageThresholds
           title := (if 0 < change then "Increased" else "Decreased") ++ " Usage Pattern"
           impact := |change|
           recommendations := getUsageRecommendations change }]
      else []

/-- The `previous` of `detectCostAnomalies`:
`billData.comparisons.previousMonth?.amount || current`. -/
def costPrevious (ch : Charges) (cmp : Comparisons) : ℚ :=
  match cmp.previousMonth with
  | some p => jsOr p.amount ch.totalAmount
  | none => ch.totalAmount

/-- The `change` of `detectCostAnomalies`; as for `usageChange`, `none` is the
`0/0 = NaN` outcome. -/
def costChange (ch : Charges) (cmp : Comparisons) : Option ℚ :=
  (jsDiv (ch.totalAmount - costPrevious ch cmp) (costPrevious ch cmp)).map (· * 100)

/-- `detectCostAnomalies(billData)`: same structure against
`charges.totalAmount` vs `comparisons.previousMonth?.amount`. -/
def detectCostAnomalies (ch : Charges) (cmp : Comparisons) : List Anomaly :=
  match costChange ch cmp with
  | none => []
  | some change =>
      if costThresholds.mild < |change| then
        [{ type := "cost_anomaly"
           severity := getSeverity |change| costThresholds
           title := (if 0 < change then "Higher" else "Lower") ++ " Bill Amount"
           impact := |change|
           recommendations := getCostRecommendations change }]
      else []

/-- `detectPatternAnomalies(billData)`: gated on the truthiness of
`usage.peakKwh && usage.totalKwh`, so the division is never by zero. -/
def detectPatternAnomalies (b : BillData) : List Anomaly :=
  if b.usage.peakKwh ≠ 0 ∧ b.usage.totalKwh ≠ 0 then
    let peakRatio := b.usage.peakKwh / b.usage.totalKwh * 100
    if 40 < peakRatio then
      [{ type := "peak_usage_anomaly"
         severity := if 50 < peakRatio then .severe else .moderate
         title := "High Peak Usage Pattern"
         impact := peakRatio
         recommendations := getPeakRecommendations }]
    else []
  else []

/-- `severityOrder` of `prioritizeAnomalies`. -/
def sevRank : Severity → ℚ
  | .severe => 3
  | .moderate => 2
  | .mild => 1

/-- `prioritizeAnomalies(anomalies)`: `sort((a, b) => order[b] - order[a])`. -/
def prioritizeAnomalies (l : List Anomaly) : List Anomaly :=
  jsSortStable (fun a b => sevRank b.severity - sevRank a.severity) l

/-- `detectAnomalies(billData)`: usage and cost checks run only when
`billData.usage && billData.comparisons` (resp. `charges && comparisons`)
are truthy; `usage`/`charges` objects are always present here. -/
def detectAnomalies (b : BillData) : List Anomaly :=
  let usageAnomalies :=
    match b.comparisons with
    | some c => detectUsageAnomalies b.usage c
    | none => []
  let costAnomalies :=
    match b.comparisons with
    | some c => detectCostAnomalies b.charges c
    | none => []
  prioritizeAnomalies (usageAnomalies ++ costAnomalies ++ detectPatternAnomalies b)

/-! ## Predictive analyzer (`services/predictiveAnalyzer.js`) -/

structure NextMonthPrediction where
  usage : ℤ
  amount : ℚ
  confidence : ℚ
  factors : List String
deriving DecidableEq

/-- `Math.round(x)`: round half toward positive infinity, which is exactly
Mathlib's `round` on `ℚ` (`round x = ⌊x + 1/2⌋`). -/
def jsRound (x : ℚ) : ℤ := round x

/-- `Math.round(x * 100) / 100`: rounding to two decimals. -/
def jsRound2 (x : ℚ) : ℚ := (round (x * 100) : ℚ) / 100

/-- `calculateTrend(billData)`: the fixed `0.02` default when no prior-month
comparison exists, else `(current − previous)/previous`.  `none` stands for
the non-finite JS result when `previousMonth.amount` is exactly `0`. -/
def calculateTrend (b : BillData) : Option ℚ :=
  match b.comparisons with
  | none => some (2/100)
  | some c =>
      match c.previousMonth with
      | none => some (2/100)
      | some p => jsDiv (b.charges.totalAmount - p.amount) p.amount

/-- `predictNextMonth(billData)`.  A non-finite trend (`none`) would propagate
non-finite usage/amount values in JS; that path is modelled as `none`. -/
def predictNextMonth (b : BillData) : Option NextMonthPrediction :=
  (calculateTrend b).map fun trend =>
    { usage := jsRound (b.usage.totalKwh * (1 + trend))
      amount := jsRound2 (b.charges.totalAmount * (1 + trend))
      confidence := 85/100
      factors := ["historical trend", "seasonal adjustment", "usage patterns"] }

/-! ## Pattern analyzer (`services/patternAnalyzer.js`)

The pattern analyzer divides by `usage.totalKwh` without any guard, so with
`totalKwh = 0` the genuine JS results `NaN` and `±Infinity` are reachable and
observable; we model its numbers with the four-point completion `JSNum`. -/

inductive JSNum where
  | fin (q : ℚ)
  | posInf
  | negInf
  | nan
deriving DecidableEq

/-- JS division for the unguarded pattern-analyzer divisions: finite quotient
when the denominator is nonzero, else `NaN` (`0/0`) or `±Infinity`. -/
def jsDivN (a b : ℚ) : JSNum :=
  if b = 0 then
    if a = 0 then .nan else if 0 < a then .posInf else .negInf
  else .fin (a / b)

/-- Multiplication of a JS value by a finite constant. -/
def JSNum.scale (x : JSNum) (c : ℚ) : JSNum :=
  match x with
  | .fin q => .fin (q * c)
  | .posInf => if 0 < c then .posInf else if c < 0 then .negInf else .nan
  | .negInf => if 0 < c then .negInf else if c < 0 then .posInf else .nan
  | .nan => .nan

/-- JS `x > t` for a possibly non-finite `x` and finite `t`
(`NaN` compares false). -/
def JSNum.gtQ (x : JSNum) (t : ℚ) : Bool :=
  match x with
  | .fin q => decide (t < q)
  | .posInf => true
  | .negInf => false
  | .nan => false

/-- `calculateEfficiency(billData)` on a bill record (the object branch of the
source's `typeof` test): `charges.totalAmount / usage.totalKwh`, unguarded. -/
def calculateEfficiency (b : BillData) : JSNum :=
  jsDivN b.charges.totalAmount b.usage.totalKwh

/-- `calculateUsageTrend(billData)` of the pattern analyzer: `0` without a
previous month, else `((current − previous)/previous) × 100`, unguarded. -/
def calculateUsageTrend (b : BillData) : JSNum :=
  match b.comparisons with
  | none => .fin 0
  | some c =>
      match c.previousMonth with
      | none => .fin 0
      | some p => (jsDivN (b.usage.totalKwh - p.usage) p.usage).scale 100

/-- `classifyUsagePattern(usage)` -/
def classifyUsagePattern (usage : ℚ) : String :=
  if usage < 600 then "low"
  else if usage < 1000 then "average"
  else if usage < 1500 then "high"
  else "very_high"

/-- `getUsagePatternRecommendations(usage, peakRatio)` (the ratio argument is
the raw `peakUsage / usage`, which can be non-finite). -/
def getUsagePatternRecommendations (usage : ℚ) (peakRatio : JSNum) : List String :=
  (if 1200 < usage then ["Consider energy audit for high usage"] else []) ++
  (if peakRatio.gtQ (4/10) then ["Shift usage to off-peak hours"] else [])

structure UsagePatterns where
  totalUsage : ℚ
  peakRatio : JSNum
  offPeakRatio : JSNum
  dailyAverage : ℚ
  efficiency : JSNum
  trend : JSNum
  classification : String
  recommendations : List String
deriving DecidableEq

/-- `analyzeUsagePatterns(billData)` -/
def analyzeUsagePatterns (b : BillData) : UsagePatterns :=
  let usage := b.usage.totalKwh
  let peakUsage := jsOr b.usage.peakKwh 0
  let offPeakUsage := jsOr b.usage.offPeakKwh (usage - peakUsage)
  { totalUsage := usage
    peakRatio := (jsDivN peakUsage usage).scale 100
    offPeakRatio := (jsDivN offPeakUsage usage).scale 100
    dailyAverage := usage / 30
    efficiency := calculateEfficiency b
    trend := calculateUsageTrend b
    classification := classifyUsagePattern usage
    recommendations := getUsagePatternRecommendations usage (jsDivN peakUsage usage) }

/-! ## Recommendation engine (`services/recommendationEngine.js`) -/

structure Recommendation where
  title : String
  category : String
  priority : String
  savings : ℚ
  actions : List String
  timeline : String
deriving DecidableEq

/-- The severity string an anomaly carries (`anomaly.severity` is one of the
three strings the detector produces). -/
def severityStr : Severity → String
  | .mild => "mild"
  | .moderate => "moderate"
  | .severe => "severe"

/-- `calculateSavings(anomaly)`: `(anomaly.impact || 100) * multiplier`, the
multiplier lookup always hitting the severity entries of the table. -/
def calculateSavings (a : Anomaly) : ℚ :=
  let multiplier : ℚ :=
    match a.severity with
    | .severe => 25/100
    | .moderate => 15/100
    | .mild => 5/100
  jsOr a.impact 100 * multiplier

/-- `generateAnomalyRecommendations(anomalies)` -/
def generateAnomalyRecommendations (anomalies : List Anomaly) : List Recommendation :=
  anomalies.map fun a =>
    { title := "Address " ++ a.title
      category := "anomaly_response"
      priority := severityStr a.severity
      savings := calculateSavings a
      actions := a.recommendations
      timeline := "1-7 days" }

/-- `generateUsageRecommendations(billData)` -/
def generateUsageRecommendations (b : BillData) : List Recommendation :=
  (if 1000 < b.usage.totalKwh then
    [{ title := "Energy Efficiency Audit"
       category := "efficiency"
       priority := "high"
       savings := b.charges.totalAmount * (20/100)
       actions := ["Schedule professional energy audit",
                   "Identify major inefficiencies",
                   "Implement recommended fixes",
                   "Monitor improvements"]
       timeline := "2-4 weeks" }]
   else []) ++
  (if b.usage.peakKwh ≠ 0 ∧ b.usage.totalKwh ≠ 0 then
    (if 35 < b.usage.peakKwh / b.usage.totalKwh * 100 then
      [{ title := "Peak Usage Optimization"
         category := "scheduling"
         priority := "medium"
         savings := b.charges.totalAmount * (15/100)
         actions := ["Shift appliance usage to off-peak hours",
                     "Install programmable timers",
                     "Use smart home automation",
                     "Monitor peak usage patterns"]
         timeline := "1-2 weeks" }]
     else [])
   else []) ++
  [{ title := "Smart Thermostat Installation"
     category := "equipment"
     priority := "medium"
     savings := b.charges.totalAmount * (12/100)
     actions := ["Research smart thermostat options",
                 "Professional installation",
                 "Configure optimal schedules",
                 "Monitor energy savings"]
     timeline := "1-3 weeks" }]

/-- `generateCostOptimizationRecommendations(billData)` -/
def generateCostOptimizationRecommendations (b : BillData) : List Recommendation :=
  [{ title := "Rate Plan Analysis"
     category := "rate_optimization"
     priority := "medium"
     savings := b.charges.totalAmount * (10/100)
     actions := ["Review current rate plan details",
                 "Compare with available alternatives",
                 "Calculate potential savings",
                 "Switch to optimal plan if beneficial"]
     timeline := "1-2 months" },
   { title := "Appliance Efficiency Review"
     category := "equipment"
     priority := "low"
     savings := b.charges.totalAmount * (8/100)
     actions := ["Audit current appliances",
                 "Identify energy-hungry devices",
                 "Research efficient replacements",
                 "Plan staged upgrades"]
     timeline := "3-12 months" },
   { title := "Home Insulation Assessment"
     category := "insulation"
     priority := "low"
     savings := b.charges.totalAmount * (15/100)
     actions := ["Professional insulation audit",
                 "Identify improvement areas",
                 "Get quotes for upgrades",
                 "Implement improvements"]
     timeline := "2-6 months" }]

structure SeasonalPrediction where
  season : String
  factor : ℚ
  estimatedAmount : ℚ
deriving DecidableEq

/-- The predictions object consumed by the recommendation engine; `nextMonth`
absent (or carrying non-finite values, which make every gate and the savings
fallback behave identically) is modelled as `none`. -/
structure Predictions where
  nextMonth : Option NextMonthPrediction
  seasonal : Option (List SeasonalPrediction)
deriving DecidableEq

/-- `generatePredictiveRecommendations(predictions)`: note the self-comparison
`predictions.nextMonth.amount > predictions.nextMonth.amount * 1.1` in the
budgeting gate, copied verbatim from the source. -/
def generatePredictiveRecommendations (p : Predictions) : List Recommendation :=
  (match p.nextMonth with
   | some nm =>
       if nm.amount * (11/10) < nm.amount then
         [{ title := "Prepare for Higher Bills"
            category := "budgeting"
            priority := "medium"
            savings := 0
            actions := ["Adjust monthly budget",
                        "Reduce discretionary usage",
                        "Monitor daily consumption",
                        "Implement immediate savings measures"]
            timeline := "This month" }]
       else []
   | none => []) ++
  (match p.seasonal with
   | some seasons =>
       if seasons.filter (fun s => (12/10 : ℚ) < s.factor) ≠ [] then
         [{ title := "Seasonal Usage Preparation"
            category := "seasonal_planning"
            priority := "low"
            savings := match p.nextMonth with
                       | some nm => jsOr (nm.amount * (10/100)) 0
                       | none => 0
            actions := ["Plan seasonal energy strategies",
                        "Schedule equipment maintenance",
                        "Adjust budget for high-usage seasons",
                        "Implement preventive measures"]
            timeline := "1-3 months" }]
       else []
   | none => [])

/-- `priorityOrder` of `prioritizeRecommendations`: only the three bucket
levels are in the table; any other priority string (in particular the anomaly
severities) looks up `undefined`. -/
def priorityOrder (s : String) : Option ℚ :=
  if s = "high" then some 3
  else if s = "medium" then some 2
  else if s = "low" then some 1
  else none

/-- The bucket comparator of `prioritizeRecommendations` after ES
`SortCompare` coercion: when either priority is outside the table the
JS subtraction is `NaN`, `NaN !== 0` returns it, and `SortCompare` coerces it
to `+0` — the savings tie-break is never reached in that case. -/
def recCmp (a b : Recommendation) : ℚ :=
  match priorityOrder a.priority with
  | none => 0
  | some pa =>
      match priorityOrder b.priority with
      | none => 0
      | some pb => if pb - pa ≠ 0 then pb - pa else b.savings - a.savings

structure RecommendationBuckets where
  immediate : List Recommendation
  shortTerm : List Recommendation
  longTerm : List Recommendation
deriving DecidableEq

/-- `prioritizeRecommendations(recommendations)` -/
def prioritizeRecommendations (r : RecommendationBuckets) : RecommendationBuckets :=
  { immediate := jsSortStable recCmp r.immediate
    shortTerm := jsSortStable recCmp r.shortTerm
    longTerm := jsSortStable recCmp r.longTerm }

/-- `generateRecommendations(billData, anomalies, predictions)`; the `usage`
and `charges` truthiness gates hold for every record of our model. -/
def generateRecommendations (b : BillData) (anomalies : List Anomaly)
    (predictions : Option Predictions) : RecommendationBuckets :=
  prioritizeRecommendations
    { immediate := if anomalies ≠ [] then generateAnomalyRecommendations anomalies else []
      shortTerm := generateUsageRecommendations b ++
        (match predictions with
         | some p => generatePredictiveRecommendations p
         | none => [])
      longTerm := generateCostOptimizationRecommendations b }

/-! ## Batch upload route (`routes/advancedBillingAPI.js`, POST /advanced-upload)

The per-document pipeline (extraction through pattern analysis) is the
`process` parameter, returning either an analysis payload or the caught error
message; the route's loop and aggregation are embedded directly. -/

structure UploadFile where
  originalname : String
deriving DecidableEq

structure DocResult (α : Type) where
  filename : String
  success : Bool
  payload : Option α
  error : Option String
deriving DecidableEq

/-- One iteration of the route's `for` loop: the `try` branch pushes a success
entry, the `catch` branch pushes `{filename, success: false, error}`. -/
def processOne (process : UploadFile → Except String α) (f : UploadFile) :
    DocResult α :=
  match process f with
  | .ok d => { filename := f.originalname, success := true, payload := some d, error := none }
  | .error e => { filename := f.originalname, success := false, payload := none, error := some e }

structure UploadResponse (α : Type) where
  results : List (DocResult α)
  totalFiles : ℕ
  successfulFiles : ℕ
deriving DecidableEq

/-- The `/advanced-upload` handler: 400 when no files, else the whole batch is
processed and aggregated. -/
def advancedUpload (process : UploadFile → Except String α)
    (files : List UploadFile) : Except String (UploadResponse α) :=
  if files.isEmpty then .error "No files uploaded"
  else
    let results := files.map (processOne process)
    .ok { results := results
          totalFiles := files.length
          successfulFiles := (results.filter (·.success)).length }

/-! ## Normalizer (`services/documentProcessor.js`, `fillMissingData`)

A partially populated bill record: each top-level section may be absent, and
each field of a present section may be absent.  `fillMissingData` spreads the
fixed mock defaults under the extracted data, section by section
(`{...mockData.section, ...data.section}` — explicit fields win, shallowly). -/

structure PartAccountInfo where
  accountNumber : Option String
  customerName : Option String
  serviceAddress : Option String
  billingAddress : Option String

structure PartBillingPeriod where
  startDate : Option String
  endDate : Option String
  daysInPeriod : Option ℚ

structure PartCharges where
  totalAmount : Option ℚ
  baseCharge : Option ℚ
  energyCharges : Option ℚ
  deliveryCharges : Option ℚ
  taxes : Option ℚ
  fees : Option ℚ
  adjustments : Option ℚ

structure PartUsage where
  totalKwh : Option ℚ
  peakKwh : Option ℚ
  offPeakKwh : Option ℚ
  demandKw : Option ℚ

structure PartRates where
  energyRate : Option ℚ
  peakRate : Option ℚ
  offPeakRate : Option ℚ
  demandRate : Option ℚ

structure PartSnapshot where
  usage : Option ℚ
  amount : Option ℚ

structure PartComparisons where
  previousMonth : Option PartSnapshot
  yearAgo : Option PartSnapshot

structure PartialBillRecord where
  accountInfo : Option PartAccountInfo
  billingPeriod : Option PartBillingPeriod
  charges : Option PartCharges
  usage : Option PartUsage
  rates : Option PartRates
  comparisons : Option PartComparisons

def emptyAccountInfo : PartAccountInfo := ⟨none, none, none, none⟩
def emptyBillingPeriod : PartBillingPeriod := ⟨none, none, none⟩
def emptyCharges : PartCharges := ⟨none, none, none, none, none, none, none⟩
def emptyUsage : PartUsage := ⟨none, none, none, none⟩
def emptyRates : PartRates := ⟨none, none, none, none⟩
def emptyComparisons : PartComparisons := ⟨none, none⟩

/-- `{...mockData.accountInfo, ...data.accountInfo}` with the mock values of
`generateMockStructuredData()`. -/
def mergeAccountInfo (d : PartAccountInfo) : PartAccountInfo :=
  { accountNumber := some (d.accountNumber.getD "****-****-1234")
    customerName := some (d.customerName.getD "John Doe")
    serviceAddress := some (d.serviceAddress.getD "123 Main Street, City, State 12345")
    billingAddress := some (d.billingAddress.getD "123 Main Street, City, State 12345") }

def mergeBillingPeriod (d : PartBillingPeriod) : PartBillingPeriod :=
  { startDate := some (d.startDate.getD "2024-01-15")
    endDate := some (d.endDate.getD "2024-02-14")
    daysInPeriod := some (d.daysInPeriod.getD 30) }

def mergeCharges (d : PartCharges) : PartCharges :=
  { totalAmount := some (d.totalAmount.getD 190)
    baseCharge := some (d.baseCharge.getD (2499/100))
    energyCharges := some (d.energyCharges.getD (10164/100))
    deliveryCharges := some (d.deliveryCharges.getD (1575/100))
    taxes := some (d.taxes.getD (845/100))
    fees := some (d.fees.getD (350/100))
    adjustments := some (d.adjustments.getD 0) }

def mergeUsage (d : PartUsage) : PartUsage :=
  { totalKwh := some (d.totalKwh.getD 847)
    peakKwh := some (d.peakKwh.getD 296)
    offPeakKwh := some (d.offPeakKwh.getD 551)
    demandKw := some (d.demandKw.getD (85/10)) }

def mergeRates (d : PartRates) : PartRates :=
  { energyRate := some (d.energyRate.getD (12/100))
    peakRate := some (d.peakRate.getD (18/100))
    offPeakRate := some (d.offPeakRate.getD (9/100))
    demandRate := some (d.demandRate.getD (1250/100)) }

/-- The comparisons merge is shallow: a supplied `previousMonth`/`yearAgo`
object replaces the mock snapshot wholesale, even if itself partial. -/
def mergeComparisons (d : PartComparisons) : PartComparisons :=
  { previousMonth := some (d.previousMonth.getD ⟨some 654, some (14532/100)⟩)
    yearAgo := some (d.yearAgo.getD ⟨some 723, some (15867/100)⟩) }

/-- `fillMissingData(data)`: spreading `undefined` contributes nothing, so an
absent section merges as the empty section. -/
def fillMissingData (d : PartialBillRecord) : PartialBillRecord :=
  { accountInfo := some (mergeAccountInfo (d.accountInfo.getD emptyAccountInfo))
    billingPeriod := some (mergeBillingPeriod (d.billingPeriod.getD emptyBillingPeriod))
    charges := some (mergeCharges (d.charges.getD emptyCharges))
    usage := some (mergeUsage (d.usage.getD emptyUsage))
    rates := some (mergeRates (d.rates.getD emptyRates))
    comparisons := some (mergeComparisons (d.comparisons.getD emptyComparisons)) }

/-! ## Claim-level notions and concrete inputs -/

/-- The priority rank a bucket entry sorts by (out-of-table priorities rank 0;
they never occur where this relation is asserted). -/
def recPriorityRank (r : Recommendation) : ℚ := (priorityOrder r.priority).getD 0

/-- "Sorted by descending priority and, within equal priority, by descending
savings": the relation between adjacent bucket entries. -/
def RecKeyGE (a b : Recommendation) : Prop :=
  recPriorityRank b < recPriorityRank a ∨
    (recPriorityRank a = recPriorityRank b ∧ b.savings ≤ a.savings)

/-- A bill with peak 500 kWh of total 1000 kWh (peak ratio exactly 50%). -/
def c1record : BillData := ⟨⟨1000, 500, 0⟩, ⟨190⟩, none⟩

/-- A bill with `charges.totalAmount = 200` and a previous-month amount 100. -/
def c4record : BillData := ⟨⟨800, 0, 0⟩, ⟨200⟩, some ⟨some ⟨700, 100⟩⟩⟩

/-- A bill record with `usage.totalKwh = 0` (and zero peak). -/
def c5record : BillData := ⟨⟨0, 0, 0⟩, ⟨190⟩, none⟩

/-- A bill record with `usage.totalKwh = 0` but nonzero `peakKwh`. -/
def c5recordPeak : BillData := ⟨⟨0, 500, 0⟩, ⟨190⟩, none⟩

/-- A bill producing two `moderate` anomalies with ascending savings: usage
1260 vs previous 1000 (+26%), amount 136 vs previous 100 (+36%). -/
def c6record : BillData := ⟨⟨1260, 0, 0⟩, ⟨136⟩, some ⟨some ⟨1000, 100⟩⟩⟩

/-- A two-document batch for the upload route. -/
def c7files : List UploadFile := [⟨"bill-a.pdf"⟩, ⟨"bill-b.pdf"⟩]

/-- A per-document pipeline that succeeds on the first document and fails on
the second. -/
def c7process (f : UploadFile) : Except String ℕ :=
  if f.originalname = "bill-a.pdf" then .ok 1
  else .error "Failed to process document: Unsupported file type"

/-- A predictions object with a positive forecast amount and a high-factor
season (so the seasonal recommendation fires but the budgeting one must not). -/
def c9preds : Predictions :=
  ⟨some ⟨1600, 400, 85/100, ["historical trend", "seasonal adjustment", "usage patterns"]⟩,
   some [⟨"winter", 13/10, 247⟩, ⟨"spring", 9/10, 171⟩]⟩

/-- A bill whose previous-month usage is exactly 0 while the current total is
also 0 — the corner where the usage-change division is `0/0`. -/
def c10record : BillData := ⟨⟨0, 0, 0⟩, ⟨100⟩, some ⟨some ⟨0, 50⟩⟩⟩

/-! # Theorems -/

/-! ## The stable-sort model -/

theorem mem_jsInsert (c : α → α → ℚ) (x a : α) :
    ∀ l : List α, a ∈ jsInsert c x l ↔ a = x ∨ a ∈ l := by
  intro l
  induction l with
  | nil => simp [jsInsert]
  | cons y ys ih =>
      by_cases h : c x y ≤ 0
      · simp [jsInsert, h]
      · simp [jsInsert, h, ih]
        tauto

theorem mem_jsSortStable (c : α → α → ℚ) (a : α) :
    ∀ l : List α, a ∈ jsSortStable c l ↔ a ∈ l := by
  intro l
  induction l with
  | nil => simp [jsSortStable]
  | cons x xs ih => simp [jsSortStable, mem_jsInsert, ih]

theorem chain_jsInsert (c : α → α → ℚ) (hc : ∀ a b, c a b = -c b a) (x : α) :
    ∀ l : List α, l.Chain' (fun a b => c a b ≤ 0) →
      (jsInsert c x l).Chain' (fun a b => c a b ≤ 0) := by
  intro l
  induction l with
  | nil => intro _; simp [jsInsert]
  | cons y ys ih =>
      intro hch
      rw [List.chain'_cons'] at hch
      by_cases h : c x y ≤ 0
      · rw [jsInsert]
        simp only [h, if_pos]
        rw [List.chain'_cons']
        refine ⟨?_, List.chain'_cons'.2 hch⟩
        intro z hz
        simp only [List.head?_cons, Option.mem_def, Option.some.injEq] at hz
        subst hz; exact h
      · have hyx : c y x ≤ 0 := by
          have := hc x y
          nlinarith [this]
        rw [jsInsert]
        simp only [h, if_neg, if_false]
        rw [List.chain'_cons']
        refine ⟨?_, ih hch.2⟩
        intro z hz
        cases ys with
        | nil =>
            simp [jsInsert] at hz
            subst hz; exact hyx
        | cons w ws =>
            by_cases hw : c x w ≤ 0
            · simp [jsInsert, hw] at hz
              subst hz; exact hyx
            · simp [jsInsert, hw] at hz
              subst hz
              exact hch.1 w (by simp)

theorem chain_jsSortStable (c : α → α → ℚ) (hc : ∀ a b, c a b = -c b a) :
    ∀ l : List α, (jsSortStable c l).Chain' (fun a b => c a b ≤ 0) := by
  intro l
  induction l with
  | nil => simp [jsSortStable]
  | cons x xs ih => exact chain_jsInsert c hc x _ ih

theorem jsSortStable_of_all_zero (c : α → α → ℚ) :
    ∀ l : List α, (∀ a ∈ l, ∀ b ∈ l, c a b = 0) → jsSortStable c l = l := by
  intro l
  induction l with
  | nil => intro _; rfl
  | cons x xs ih =>
      intro h
      rw [jsSortStable, ih (fun a ha b hb => h a (by simp [ha]) b (by simp [hb]))]
      cases xs with
      | nil => rfl
      | cons y ys =>
          rw [jsInsert]
          have : c x y = 0 := h x (by simp) y (by simp)
          simp [this]

/-- Transfer a chain along an implication that may use membership. -/
theorem chain_imp_of_mem {R S : α → α → Prop} :
    ∀ l : List α, l.Chain' R → (∀ a ∈ l, ∀ b ∈ l, R a b → S a b) → l.Chain' S := by
  intro l
  induction l with
  | nil => intro _ _; exact List.chain'_nil
  | cons x xs ih =>
      intro hch himp
      rw [List.chain'_cons'] at hch ⊢
      refine ⟨?_, ih hch.2 (fun a ha b hb => himp a (by simp [ha]) b (by simp [hb]))⟩
      intro y hy
      have hym : y ∈ xs := List.mem_of_mem_head? hy
      exact himp x (by simp) y (by simp [hym]) (hch.1 y hy)

/-! ## Anomaly-detector helper lemmas -/

theorem type_of_mem_detectUsageAnomalies (u : Usage) (cmp : Comparisons) :
    ∀ a ∈ detectUsageAnomalies u cmp, a.type = "usage_anomaly" := by
  intro a ha
  unfold detectUsageAnomalies at ha
  split at ha
  · simp at ha
  · split at ha
    · simp at ha; subst ha; rfl
    · simp at ha

theorem type_of_mem_detectCostAnomalies (ch : Charges) (cmp : Comparisons) :
    ∀ a ∈ detectCostAnomalies ch cmp, a.type = "cost_anomaly" := by
  intro a ha
  unfold detectCostAnomalies at ha
  split at ha
  · simp at ha
  · split at ha
    · simp at ha; subst ha; rfl
    · simp at ha

theorem mem_ite_singleton {c : Prop} [Decidable c] {x a : α}
    (h : a ∈ (if c then [x] else [])) : a = x := by
  split at h
  · simpa using h
  · simp at h

theorem type_of_mem_detectPatternAnomalies (b : BillData) :
    ∀ a ∈ detectPatternAnomalies b, a.type = "peak_usage_anomaly" := by
  intro a ha
  unfold detectPatternAnomalies at ha
  split at ha
  · have ha' := mem_ite_singleton ha
    subst ha'; rfl
  · simp at ha

theorem mem_detectAnomalies_iff (b : BillData) (a : Anomaly) :
    a ∈ detectAnomalies b ↔
      a ∈ (match b.comparisons with
           | some c => detectUsageAnomalies b.usage c
           | none => ([] : List Anomaly)) ∨
      a ∈ (match b.comparisons with
           | some c => detectCostAnomalies b.charges c
           | none => ([] : List Anomaly)) ∨
      a ∈ detectPatternAnomalies b := by
  unfold detectAnomalies prioritizeAnomalies
  rw [mem_jsSortStable]
  simp [or_assoc]

theorem usagePrevious_eq_current_of_zero (u : Usage) (cmp : Comparisons) :
    (cmp.previousMonth = none ∨ ∃ p, cmp.previousMonth = some p ∧ p.usage = 0) →
    usagePrevious u cmp = u.totalKwh := by
  intro h
  rcases h with h | ⟨p, hp, hz⟩
  · simp [usagePrevious, h]
  · simp [usagePrevious, hp, jsOr, hz]

theorem costPrevious_eq_current_of_zero (ch : Charges) (cmp : Comparisons) :
    (cmp.previousMonth = none ∨ ∃ p, cmp.previousMonth = some p ∧ p.amount = 0) →
    costPrevious ch cmp = ch.totalAmount := by
  intro h
  rcases h with h | ⟨p, hp, hz⟩
  · simp [costPrevious, h]
  · simp [costPrevious, hp, jsOr, hz]

theorem usageChange_of_prev_eq_current (u : Usage) (cmp : Comparisons)
    (h : usagePrevious u cmp = u.totalKwh) :
    usageChange u cmp = if u.totalKwh = 0 then none else some 0 := by
  by_cases hc : u.totalKwh = 0 <;> simp [usageChange, h, jsDiv, hc]

theorem costChange_of_prev_eq_current (ch : Charges) (cmp : Comparisons)
    (h : costPrevious ch cmp = ch.totalAmount) :
    costChange ch cmp = if ch.totalAmount = 0 then none else some 0 := by
  by_cases hc : ch.totalAmount = 0 <;> simp [costChange, h, jsDiv, hc]

theorem detectUsageAnomalies_eq_nil_of_prev_eq_current (u : Usage) (cmp : Comparisons)
    (h : usagePrevious u cmp = u.totalKwh) :
    detectUsageAnomalies u cmp = [] := by
  unfold detectUsageAnomalies
  rw [usageChange_of_prev_eq_current u cmp h]
  by_cases hc : u.totalKwh = 0
  · simp [hc]
  · simp [hc, usageThresholds]

theorem detectCostAnomalies_eq_nil_of_prev_eq_current (ch : Charges) (cmp : Comparisons)
    (h : costPrevious ch cmp = ch.totalAmount) :
    detectCostAnomalies ch cmp = [] := by
  unfold detectCostAnomalies
  rw [costChange_of_prev_eq_current ch cmp h]
  by_cases hc : ch.totalAmount = 0
  · simp [hc]
  · simp [hc, costThresholds]

/-! ## Claim C3 -/

/-- Claim C3 (confirmed): for every bill record in which
`comparisons.previousMonth` is absent, `detectAnomalies` returns no anomaly of
type `usage_anomaly` and no anomaly of type `cost_anomaly` (the change
defaults to 0 in both checks). -/
theorem c3_no_usage_cost_anomaly_without_previous_month (b : BillData)
    (h : b.comparisons.bind (fun c => c.previousMonth) = none) :
    ∀ a ∈ detectAnomalies b, a.type ≠ "usage_anomaly" ∧ a.type ≠ "cost_anomaly" := by
  intro a ha
  rw [mem_detectAnomalies_iff] at ha
  cases hb : b.comparisons with
  | none =>
      rw [hb] at ha
      simp only [List.not_mem_nil, false_or] at ha
      have ht := type_of_mem_detectPatternAnomalies b a ha
      rw [ht]
      exact ⟨by decide, by decide⟩
  | some c =>
      rw [hb] at ha h
      simp at h
      simp only [detectUsageAnomalies_eq_nil_of_prev_eq_current b.usage c
            (usagePrevious_eq_current_of_zero b.usage c (Or.inl h)),
          detectCostAnomalies_eq_nil_of_prev_eq_current b.charges c
            (costPrevious_eq_current_of_zero b.charges c (Or.inl h)),
          List.not_mem_nil, false_or] at ha
      have ht := type_of_mem_detectPatternAnomalies b a ha
      rw [ht]
      exact ⟨by decide, by decide⟩

/-- Witness for C3 at a concrete record lacking `previousMonth`. -/
theorem c3_witness :
    (c1record.comparisons.bind (fun c => c.previousMonth) = none) ∧
    ∀ a ∈ detectAnomalies c1record, a.type ≠ "usage_anomaly" ∧ a.type ≠ "cost_anomaly" :=
  ⟨rfl, c3_no_usage_cost_anomaly_without_previous_month c1record rfl⟩

/-! ## Claim C10 -/

/-- Counterexample for C10 as stated: with `previousMonth.usage = 0` and a
current `totalKwh` of 0, the truthiness fallback substitutes `0` for
`previous`, so the change computation divides by zero (`0/0`, the non-finite
`none`) and the change is not 0 — refuting "change is 0" and "the division by
previous never divides by zero". -/
theorem c10_counterexample :
    c10record.comparisons = some ⟨some ⟨0, 50⟩⟩ ∧
    (⟨0, 50⟩ : Snapshot).usage = 0 ∧
    usagePrevious c10record.usage ⟨some ⟨0, 50⟩⟩ = 0 ∧
    usageChange c10record.usage ⟨some ⟨0, 50⟩⟩ = none ∧
    usageChange c10record.usage ⟨some ⟨0, 50⟩⟩ ≠ some 0 := by
  refine ⟨rfl, rfl, rfl, rfl, by decide⟩

/-- Claim C10 (corrected): when `comparisons.previousMonth.usage`
(resp. `.amount`) is exactly 0, the truthiness fallback substitutes the
current value for `previous` and no usage (resp. cost) anomaly is ever
emitted; when the current value is nonzero the change is 0 and the divisor is
nonzero, but when the current value is also 0 the change is the non-finite
`0/0` — a division by zero — though still no anomaly is emitted. -/
theorem c10_amended_zero_previous_truthiness (b : BillData) (c : Comparisons)
    (p : Snapshot) (hb : b.comparisons = some c) (hp : c.previousMonth = some p) :
    (p.usage = 0 →
       (∀ a ∈ detectAnomalies b, a.type ≠ "usage_anomaly") ∧
       usagePrevious b.usage c = b.usage.totalKwh ∧
       (b.usage.totalKwh ≠ 0 → usageChange b.usage c = some 0)) ∧
    (p.amount = 0 →
       (∀ a ∈ detectAnomalies b, a.type ≠ "cost_anomaly") ∧
       costPrevious b.charges c = b.charges.totalAmount ∧
       (b.charges.totalAmount ≠ 0 → costChange b.charges c = some 0)) := by
  constructor
  · intro hz
    have hprev := usagePrevious_eq_current_of_zero b.usage c (Or.inr ⟨p, hp, hz⟩)
    refine ⟨?_, hprev, ?_⟩
    · intro a ha
      rw [mem_detectAnomalies_iff] at ha
      rw [hb] at ha
      simp only [detectUsageAnomalies_eq_nil_of_prev_eq_current b.usage c hprev,
        List.not_mem_nil, false_or] at ha
      rcases ha with ha | ha
      · rw [type_of_mem_detectCostAnomalies b.charges c a ha]; decide
      · rw [type_of_mem_detectPatternAnomalies b a ha]; decide
    · intro hc
      rw [usageChange_of_prev_eq_current b.usage c hprev]
      simp [hc]
  · intro hz
    have hprev := costPrevious_eq_current_of_zero b.charges c (Or.inr ⟨p, hp, hz⟩)
    refine ⟨?_, hprev, ?_⟩
    · intro a ha
      rw [mem_detectAnomalies_iff] at ha
      rw [hb] at ha
      simp only [detectCostAnomalies_eq_nil_of_prev_eq_current b.charges c hprev,
        List.not_mem_nil, false_or] at ha
      rcases ha with ha | ha
      · rw [type_of_mem_detectUsageAnomalies b.usage c a ha]; decide
      · rw [type_of_mem_detectPatternAnomalies b a ha]; decide
    · intro hc
      rw [costChange_of_prev_eq_current b.charges c hprev]
      simp [hc]

/-- Witness for C10 (amended) at a record with nonzero current values and
zeroed previous-month snapshot. -/
theorem c10_witness :
    usageChange (⟨900, 0, 0⟩ : Usage) ⟨some ⟨0, 0⟩⟩ = some 0 ∧
    costChange (⟨120⟩ : Charges) ⟨some ⟨0, 0⟩⟩ = some 0 ∧
    ∀ a ∈ detectAnomalies ⟨⟨900, 0, 0⟩, ⟨120⟩, some ⟨some ⟨0, 0⟩⟩⟩,
      a.type ≠ "usage_anomaly" := by
  have h := c10_amended_zero_previous_truthiness
    ⟨⟨900, 0, 0⟩, ⟨120⟩, some ⟨some ⟨0, 0⟩⟩⟩ ⟨some ⟨0, 0⟩⟩ ⟨0, 0⟩ rfl rfl
  exact ⟨(h.1 rfl).2.2 (by norm_num), (h.2 rfl).2.2 (by norm_num), (h.1 rfl).1⟩

/-! ## Claim C1 -/

theorem detectAnomalies_c1record :
    detectAnomalies c1record =
      [{ type := "peak_usage_anomaly", severity := Severity.moderate,
         title := "High Peak Usage Pattern", impact := 50,
         recommendations := getPeakRecommendations }] := by
  norm_num [detectAnomalies, prioritizeAnomalies, jsSortStable, jsInsert,
    detectPatternAnomalies, c1record]

/-- Counterexample for C1 as stated: at peak 500 kWh of total 1000 kWh the
ratio is exactly 50% and `detectAnomalies` returns one peak-usage anomaly of
severity `moderate`, not `severe`. -/
theorem c1_counterexample :
    (detectAnomalies c1record).map Anomaly.type = ["peak_usage_anomaly"] ∧
    (detectAnomalies c1record).map Anomaly.severity = [Severity.moderate] ∧
    c1record.usage.peakKwh / c1record.usage.totalKwh * 100 = 50 ∧
    Severity.moderate ≠ Severity.severe := by
  rw [detectAnomalies_c1record]
  exact ⟨rfl, rfl, by norm_num [c1record], by decide⟩

/-- Claim C1 (corrected): a peak ratio of exactly 50% produces a peak-usage
anomaly of severity `moderate` (the `severe` tier requires a ratio strictly
greater than 50%). -/
theorem c1_amended_peak_ratio_fifty_is_moderate (b : BillData)
    (hp : b.usage.peakKwh ≠ 0) (ht : b.usage.totalKwh ≠ 0)
    (hr : b.usage.peakKwh / b.usage.totalKwh * 100 = 50) :
    (∃ a ∈ detectAnomalies b, a.type = "peak_usage_anomaly" ∧
       a.severity = Severity.moderate) ∧
    ∀ a ∈ detectAnomalies b, a.type = "peak_usage_anomaly" →
      a.severity = Severity.moderate := by
  have hpat : detectPatternAnomalies b =
      [{ type := "peak_usage_anomaly", severity := Severity.moderate,
         title := "High Peak Usage Pattern", impact := 50,
         recommendations := getPeakRecommendations }] := by
    unfold detectPatternAnomalies
    rw [if_pos ⟨hp, ht⟩]
    simp only [hr]
    norm_num
  constructor
  · refine ⟨{ type := "peak_usage_anomaly", severity := Severity.moderate,
              title := "High Peak Usage Pattern", impact := 50,
              recommendations := getPeakRecommendations }, ?_, rfl, rfl⟩
    rw [mem_detectAnomalies_iff]
    right; right
    rw [hpat]
    exact List.mem_singleton_self _
  · intro a ha hty
    rw [mem_detectAnomalies_iff] at ha
    rcases ha with ha | ha | ha
    · cases hbc : b.comparisons with
      | none => rw [hbc] at ha; exact absurd ha (List.not_mem_nil a)
      | some c =>
          rw [hbc] at ha
          have ha' : a ∈ detectUsageAnomalies b.usage c := ha
          rw [type_of_mem_detectUsageAnomalies b.usage c a ha'] at hty
          exact absurd hty (by decide)
    · cases hbc : b.comparisons with
      | none => rw [hbc] at ha; exact absurd ha (List.not_mem_nil a)
      | some c =>
          rw [hbc] at ha
          have ha' : a ∈ detectCostAnomalies b.charges c := ha
          rw [type_of_mem_detectCostAnomalies b.charges c a ha'] at hty
          exact absurd hty (by decide)
    · rw [hpat] at ha
      rw [List.eq_of_mem_singleton ha]

/-- Witness for C1 (amended) at the 500-of-1000 record. -/
theorem c1_witness :
    (∃ a ∈ detectAnomalies c1record, a.type = "peak_usage_anomaly" ∧
       a.severity = Severity.moderate) ∧
    ∀ a ∈ detectAnomalies c1record, a.type = "peak_usage_anomaly" →
      a.severity = Severity.moderate :=
  c1_amended_peak_ratio_fifty_is_moderate c1record (by norm_num [c1record])
    (by norm_num [c1record]) (by norm_num [c1record])

/-! ## Claim C2 -/

theorem getSeverity_monotone (t : Thresholds) (v w : ℚ) (hvw : v ≤ w) :
    sevRank (getSeverity v t) ≤ sevRank (getSeverity w t) := by
  unfold getSeverity
  split_ifs with h1 h2 h3 h4 <;> simp [sevRank] <;> linarith

theorem getSeverity_partition (t : Thresholds) (hms : t.moderate ≤ t.severe) (v : ℚ) :
    (getSeverity v t = .mild ↔ v < t.moderate) ∧
    (getSeverity v t = .moderate ↔ t.moderate ≤ v ∧ v < t.severe) ∧
    (getSeverity v t = .severe ↔ t.severe ≤ v) := by
  unfold getSeverity
  by_cases h1 : t.severe ≤ v
  · rw [if_pos h1]
    exact ⟨⟨fun h => Severity.noConfusion h, fun h => by exfalso; linarith⟩,
           ⟨fun h => Severity.noConfusion h, fun h => by exfalso; linarith [h.2]⟩,
           ⟨fun _ => h1, fun _ => rfl⟩⟩
  · rw [if_neg h1]
    by_cases h2 : t.moderate ≤ v
    · rw [if_pos h2]
      exact ⟨⟨fun h => Severity.noConfusion h, fun h => by exfalso; linarith⟩,
             ⟨fun _ => ⟨h2, not_le.mp h1⟩, fun _ => rfl⟩,
             ⟨fun h => Severity.noConfusion h, fun h => absurd h h1⟩⟩
    · rw [if_neg h2]
      exact ⟨⟨fun _ => not_le.mp h2, fun _ => rfl⟩,
             ⟨fun h => Severity.noConfusion h, fun h => absurd h.1 h2⟩,
             ⟨fun h => Severity.noConfusion h, fun h => absurd h h1⟩⟩

theorem mem_detectUsageAnomalies_emission (u : Usage) (cmp : Comparisons) :
    ∀ a ∈ detectUsageAnomalies u cmp,
      usageThresholds.mild < a.impact ∧
      a.severity = getSeverity a.impact usageThresholds := by
  intro a ha
  unfold detectUsageAnomalies at ha
  split at ha
  · simp at ha
  · split at ha
    case isTrue h =>
        simp only [List.mem_singleton] at ha
        subst ha
        exact ⟨h, rfl⟩
    case isFalse h => simp at ha

theorem mem_detectCostAnomalies_emission (ch : Charges) (cmp : Comparisons) :
    ∀ a ∈ detectCostAnomalies ch cmp,
      costThresholds.mild < a.impact ∧
      a.severity = getSeverity a.impact costThresholds := by
  intro a ha
  unfold detectCostAnomalies at ha
  split at ha
  · simp at ha
  · split at ha
    case isTrue h =>
        simp only [List.mem_singleton] at ha
        subst ha
        exact ⟨h, rfl⟩
    case isFalse h => simp at ha

/-- Counterexample for C2 as stated: the claimed tiers `(15,25] ↦ mild` and
`(20,35] ↦ mild` fail at the boundaries — the code classifies `25` (usage) and
`35` (cost) as `moderate`, because `getSeverity` uses `>=` on the thresholds. -/
theorem c2_counterexample :
    ((15 : ℚ) < 25 ∧ (25 : ℚ) ≤ 25 ∧ getSeverity 25 usageThresholds ≠ Severity.mild ∧
      getSeverity 25 usageThresholds = Severity.moderate) ∧
    ((20 : ℚ) < 35 ∧ (35 : ℚ) ≤ 35 ∧ getSeverity 35 costThresholds ≠ Severity.mild ∧
      getSeverity 35 costThresholds = Severity.moderate) := by decide

/-- Claim C2 (corrected): severity is a monotonic non-decreasing function of
`|change%|`, every emitted usage (cost) anomaly has `|change%| > 15` (`> 20`)
with severity `getSeverity`, and the tiers partition the emission range as
`(15,25) ↦ mild`, `[25,40) ↦ moderate`, `[40,∞) ↦ severe` for usage and
`(20,35) ↦ mild`, `[35,50) ↦ moderate`, `[50,∞) ↦ severe` for cost: the
boundary values 25/40 (35/50) already belong to the higher tier because
`getSeverity` compares with `>=`. -/
theorem c2_amended_severity_partition_monotone :
    (∀ v w : ℚ, v ≤ w →
       sevRank (getSeverity v usageThresholds) ≤ sevRank (getSeverity w usageThresholds)) ∧
    (∀ v w : ℚ, v ≤ w →
       sevRank (getSeverity v costThresholds) ≤ sevRank (getSeverity w costThresholds)) ∧
    (∀ v : ℚ, 15 < v →
       (getSeverity v usageThresholds = .mild ↔ v < 25) ∧
       (getSeverity v usageThresholds = .moderate ↔ 25 ≤ v ∧ v < 40) ∧
       (getSeverity v usageThresholds = .severe ↔ 40 ≤ v)) ∧
    (∀ v : ℚ, 20 < v →
       (getSeverity v costThresholds = .mild ↔ v < 35) ∧
       (getSeverity v costThresholds = .moderate ↔ 35 ≤ v ∧ v < 50) ∧
       (getSeverity v costThresholds = .severe ↔ 50 ≤ v)) ∧
    (∀ u cmp, ∀ a ∈ detectUsageAnomalies u cmp,
       usageThresholds.mild < a.impact ∧
       a.severity = getSeverity a.impact usageThresholds) ∧
    (∀ ch cmp, ∀ a ∈ detectCostAnomalies ch cmp,
       costThresholds.mild < a.impact ∧
       a.severity = getSeverity a.impact costThresholds) := by
  refine ⟨fun v w h => getSeverity_monotone usageThresholds v w h,
          fun v w h => getSeverity_monotone costThresholds v w h,
          fun v _ => ?_, fun v _ => ?_,
          mem_detectUsageAnomalies_emission,
          mem_detectCostAnomalies_emission⟩
  · have h := getSeverity_partition usageThresholds (by norm_num [usageThresholds]) v
    simpa [usageThresholds] using h
  · have h := getSeverity_partition costThresholds (by norm_num [costThresholds]) v
    simpa [costThresholds] using h

/-- Witness for C2 (amended) at concrete severities. -/
theorem c2_witness :
    sevRank (getSeverity 16 usageThresholds) ≤ sevRank (getSeverity 45 usageThresholds) ∧
    getSeverity 30 usageThresholds = Severity.moderate ∧
    getSeverity 55 costThresholds = Severity.severe := by
  refine ⟨c2_amended_severity_partition_monotone.1 16 45 (by norm_num), ?_, ?_⟩
  · exact ((c2_amended_severity_partition_monotone.2.2.1 30 (by norm_num)).2.1).mpr
      ⟨by norm_num, by norm_num⟩
  · exact ((c2_amended_severity_partition_monotone.2.2.2.1 55 (by norm_num)).2.2).mpr
      (by norm_num)

/-! ## Claim C4 -/

/-- Claim C4 (confirmed): the trend is `(current − previous)/previous` when
`comparisons.previousMonth` exists (and its amount is nonzero, so the quotient
is finite) and exactly `0.02` otherwise; at `totalAmount = 200` against a
previous amount of 100 the trend is `1.0` and `predictNextMonth` returns
amount 400 (rounded to cents) with confidence `0.85`. -/
theorem c4_trend_definition_and_scenario :
    (∀ (b : BillData) (c : Comparisons) (p : Snapshot),
       b.comparisons = some c → c.previousMonth = some p → p.amount ≠ 0 →
       calculateTrend b = some ((b.charges.totalAmount - p.amount) / p.amount)) ∧
    (∀ b : BillData, b.comparisons.bind (fun c => c.previousMonth) = none →
       calculateTrend b = some (2/100)) ∧
    calculateTrend c4record = some 1 ∧
    predictNextMonth c4record =
      some ⟨1600, 400, 85/100,
            ["historical trend", "seasonal adjustment", "usage patterns"]⟩ := by
  have htrend : calculateTrend c4record = some 1 := by
    norm_num [calculateTrend, c4record, jsDiv]
  refine ⟨?_, ?_, htrend, ?_⟩
  · intro b c p hb hp hz
    simp [calculateTrend, hb, hp, jsDiv, hz]
  · intro b h
    cases hb : b.comparisons with
    | none => simp [calculateTrend, hb]
    | some c =>
        rw [hb] at h
        simp at h
        simp [calculateTrend, hb, h]
  · rw [predictNextMonth, htrend]
    have h1 : c4record.usage.totalKwh * 2 = ((1600 : ℤ) : ℚ) := by
      norm_num [c4record]
    have h2 : c4record.charges.totalAmount * 2 * 100 = ((40000 : ℤ) : ℚ) := by
      norm_num [c4record]
    simp only [Option.map_some, jsRound, jsRound2]
    norm_num [h1, h2, round_intCast]

/-- Witness for C4 at the scenario record (previous amount 100) and at a
record with no previous month. -/
theorem c4_witness :
    calculateTrend c4record = some ((c4record.charges.totalAmount - 100) / 100) ∧
    calculateTrend c1record = some (2/100) :=
  ⟨c4_trend_definition_and_scenario.1 c4record ⟨some ⟨700, 100⟩⟩ ⟨700, 100⟩ rfl rfl
     (by norm_num),
   c4_trend_definition_and_scenario.2.1 c1record rfl⟩

/-! ## Claim C5 -/

/-- Claim C5 (code bug): the claim and the specification require that with
`usage.totalKwh = 0` the usage-pattern and efficiency computations return
defined neutral values such as ratios of 0 (the specification's
`ArithmeticGuard`).  The code has no such guard: the computations do not
throw, but the peak/off-peak ratios and the efficiency are the non-finite JS
values `NaN` / `Infinity`, not neutral zeros.  (Only `dailyAverage`, whose
divisor is the constant 30, is finite.) -/
theorem c5_zero_total_kwh_yields_nonfinite :
    (analyzeUsagePatterns c5record).peakRatio = JSNum.nan ∧
    (analyzeUsagePatterns c5record).offPeakRatio = JSNum.nan ∧
    (analyzeUsagePatterns c5record).efficiency = JSNum.posInf ∧
    calculateEfficiency c5record = JSNum.posInf ∧
    (analyzeUsagePatterns c5recordPeak).peakRatio = JSNum.posInf ∧
    (analyzeUsagePatterns c5record).peakRatio ≠ JSNum.fin 0 ∧
    (analyzeUsagePatterns c5record).dailyAverage = 0 := by
  norm_num [analyzeUsagePatterns, calculateEfficiency, calculateUsageTrend,
    jsDivN, jsOr, JSNum.scale, c5record, c5recordPeak]
  decide

/-! ## Claim C7 -/

/-- Claim C7 (confirmed): in a batch upload, every submitted document yields
exactly one result entry in order; a failing document yields a
`{filename, success: false, error}` entry while the siblings are still
processed; and the response aggregates `totalFiles` (all submitted files) and
`successfulFiles` (the count of entries with `success = true`). -/
theorem c7_batch_partial_failure_aggregation {α : Type}
    (process : UploadFile → Except String α) (files : List UploadFile)
    (h : files ≠ []) :
    ∃ resp : UploadResponse α,
      advancedUpload process files = Except.ok resp ∧
      resp.totalFiles = files.length ∧
      resp.results = files.map (processOne process) ∧
      resp.results.length = files.length ∧
      resp.successfulFiles = (resp.results.filter (fun r => r.success)).length ∧
      ∀ f e, f ∈ files → process f = Except.error e →
        ({ filename := f.originalname, success := false, payload := none,
           error := some e } : DocResult α) ∈ resp.results := by
  have hne : files.isEmpty = false := by
    cases files with
    | nil => exact absurd rfl h
    | cons a l => rfl
  refine ⟨{ results := files.map (processOne process)
            totalFiles := files.length
            successfulFiles :=
              ((files.map (processOne process)).filter (fun r => r.success)).length },
          ?_, rfl, rfl, by simp, rfl, ?_⟩
  · simp [advancedUpload, hne]
  · intro f e hf hpe
    have hone : processOne process f =
        { filename := f.originalname, success := false, payload := none,
          error := some e } := by
      unfold processOne
      rw [hpe]
    rw [← hone]
    exact List.mem_map_of_mem _ hf

/-- Witness for C7: a two-file batch whose second document fails. -/
theorem c7_witness :
    ∃ resp : UploadResponse ℕ,
      advancedUpload c7process c7files = Except.ok resp ∧
      resp.totalFiles = c7files.length ∧
      resp.results = c7files.map (processOne c7process) ∧
      resp.results.length = c7files.length ∧
      resp.successfulFiles = (resp.results.filter (fun r => r.success)).length ∧
      ∀ f e, f ∈ c7files → c7process f = Except.error e →
        ({ filename := f.originalname, success := false, payload := none,
           error := some e } : DocResult ℕ) ∈ resp.results :=
  c7_batch_partial_failure_aggregation c7process c7files (by simp [c7files])

/-! ## Claim C8 -/

/-- Claim C8 (confirmed): the normalizer's deep-merge of fixed defaults, where
explicit fields win, is idempotent: `fillMissingData (fillMissingData r) =
fillMissingData r` for every partial record `r`. -/
theorem c8_fill_missing_data_idempotent (r : PartialBillRecord) :
    fillMissingData (fillMissingData r) = fillMissingData r := rfl

/-! ## Claim C9 -/

/-- Claim C9 (confirmed): for every predictions object with a (finite)
non-negative `nextMonth.amount`, `generatePredictiveRecommendations` never
emits the budgeting recommendation `Prepare for Higher Bills`: its gate
compares `nextMonth.amount` against `nextMonth.amount × 1.1`, which is false
whenever the amount is non-negative. -/
theorem c9_prepare_for_higher_bills_never_emitted (p : Predictions)
    (nm : NextMonthPrediction) (hnm : p.nextMonth = some nm) (h0 : 0 ≤ nm.amount) :
    ∀ r ∈ generatePredictiveRecommendations p, r.title ≠ "Prepare for Higher Bills" := by
  intro r hr
  unfold generatePredictiveRecommendations at hr
  have hgate : ¬ nm.amount * (11/10) < nm.amount := by nlinarith
  simp only [hnm, if_neg hgate, List.nil_append] at hr
  cases hs : p.seasonal with
  | none =>
      rw [hs] at hr
      exact absurd hr (List.not_mem_nil r)
  | some seasons =>
      rw [hs] at hr
      have hre := mem_ite_singleton hr
      rw [hre]
      show "Seasonal Usage Preparation" ≠ "Prepare for Higher Bills"
      decide

/-- Witness for C9: a predictions object whose seasonal recommendation fires
but whose budgeting recommendation must not. -/
theorem c9_witness :
    (generatePredictiveRecommendations c9preds).filter
      (fun r => r.title == "Prepare for Higher Bills") = [] := by
  rw [List.filter_eq_nil]
  intro r hr
  simp only [beq_iff_eq]
  exact c9_prepare_for_higher_bills_never_emitted c9preds
    ⟨1600, 400, 85/100, ["historical trend", "seasonal adjustment", "usage patterns"]⟩
    rfl (by norm_num) r hr

/-! ## Claim C6 -/

theorem recCmp_antisymm (a b : Recommendation) : recCmp a b = -recCmp b a := by
  unfold recCmp
  rcases ha : priorityOrder a.priority with _ | pa <;>
    rcases hb : priorityOrder b.priority with _ | pb
  · show (0 : ℚ) = -(0 : ℚ); norm_num
  · show (0 : ℚ) = -(0 : ℚ); norm_num
  · show (0 : ℚ) = -(0 : ℚ); norm_num
  · show (if pb - pa ≠ 0 then pb - pa else b.savings - a.savings) =
      -(if pa - pb ≠ 0 then pa - pb else a.savings - b.savings)
    by_cases hd : pb - pa = 0
    · have hd' : pa - pb = 0 := by linarith
      rw [if_neg (not_not_intro hd), if_neg (not_not_intro hd')]
      ring
    · have hd' : pa - pb ≠ 0 := fun hc => hd (by linarith)
      rw [if_pos hd, if_pos hd']
      ring

theorem recCmp_le_keyGE (a b : Recommendation)
    (ha : (priorityOrder a.priority).isSome = true)
    (hb : (priorityOrder b.priority).isSome = true)
    (hle : recCmp a b ≤ 0) : RecKeyGE a b := by
  rcases Option.isSome_iff_exists.mp ha with ⟨pa, hpa⟩
  rcases Option.isSome_iff_exists.mp hb with ⟨pb, hpb⟩
  unfold recCmp at hle
  simp only [hpa, hpb] at hle
  unfold RecKeyGE recPriorityRank
  rw [hpa, hpb]
  simp only [Option.getD_some]
  by_cases hd : pb - pa = 0
  · right
    refine ⟨by linarith, ?_⟩
    rw [if_neg (not_not_intro hd)] at hle
    linarith
  · left
    rw [if_pos hd] at hle
    have : pb - pa < 0 := lt_of_le_of_ne hle hd
    linarith

theorem chain_keyGE_jsSortStable (l : List Recommendation)
    (h : ∀ r ∈ l, (priorityOrder r.priority).isSome = true) :
    (jsSortStable recCmp l).Chain' RecKeyGE := by
  apply chain_imp_of_mem _ (chain_jsSortStable recCmp recCmp_antisymm l)
  intro a ha b hb hle
  exact recCmp_le_keyGE a b (h a ((mem_jsSortStable recCmp a l).mp ha))
    (h b ((mem_jsSortStable recCmp b l).mp hb)) hle

theorem inTable_of_mem_usageRecs (b : BillData) :
    ∀ r ∈ generateUsageRecommendations b, (priorityOrder r.priority).isSome = true := by
  intro r hr
  unfold generateUsageRecommendations at hr
  rcases List.mem_append.mp hr with h | h
  · rcases List.mem_append.mp h with h' | h'
    · rw [mem_ite_singleton h']
      show (priorityOrder "high").isSome = true
      decide
    · split at h'
      · rw [mem_ite_singleton h']
        show (priorityOrder "medium").isSome = true
        decide
      · exact absurd h' (List.not_mem_nil r)
  · rw [List.eq_of_mem_singleton h]
    show (priorityOrder "medium").isSome = true
    decide

theorem inTable_of_mem_predRecs (p : Predictions) :
    ∀ r ∈ generatePredictiveRecommendations p,
      (priorityOrder r.priority).isSome = true := by
  intro r hr
  unfold generatePredictiveRecommendations at hr
  rcases List.mem_append.mp hr with h | h
  · cases hnm : p.nextMonth with
    | none => rw [hnm] at h; exact absurd h (List.not_mem_nil r)
    | some nm =>
        rw [hnm] at h
        rw [mem_ite_singleton h]
        show (priorityOrder "medium").isSome = true
        decide
  · cases hs : p.seasonal with
    | none => rw [hs] at h; exact absurd h (List.not_mem_nil r)
    | some seasons =>
        rw [hs] at h
        rw [mem_ite_singleton h]
        show (priorityOrder "low").isSome = true
        decide

theorem inTable_of_mem_costRecs (b : BillData) :
    ∀ r ∈ generateCostOptimizationRecommendations b,
      (priorityOrder r.priority).isSome = true := by
  intro r hr
  unfold generateCostOptimizationRecommendations at hr
  rcases List.mem_cons.mp hr with rfl | hr
  · show (priorityOrder "medium").isSome = true
    decide
  rcases List.mem_cons.mp hr with rfl | hr
  · show (priorityOrder "low").isSome = true
    decide
  rcases List.mem_cons.mp hr with rfl | hr
  · show (priorityOrder "low").isSome = true
    decide
  exact absurd hr (List.not_mem_nil r)

theorem priorityOrder_severityStr (s : Severity) :
    priorityOrder (severityStr s) = none := by
  cases s <;> decide

theorem recCmp_zero_of_left_none (a b : Recommendation)
    (h : priorityOrder a.priority = none) : recCmp a b = 0 := by
  simp [recCmp, h]

/-- The immediate bucket is never reordered: every anomaly recommendation
carries a severity string, the priority table yields `undefined` for it, the
comparator's `NaN` is coerced to 0, and a stable sort of all-equal elements is
the identity. -/
theorem jsSortStable_anomalyRecs (anomalies : List Anomaly) :
    jsSortStable recCmp (generateAnomalyRecommendations anomalies) =
      generateAnomalyRecommendations anomalies := by
  apply jsSortStable_of_all_zero
  intro x hx y hy
  rcases List.mem_map.mp hx with ⟨a0, _, rfl⟩
  exact recCmp_zero_of_left_none _ y (priorityOrder_severityStr a0.severity)

/-- Claim C6 (corrected): the `shortTerm` and `longTerm` buckets returned by
`generateRecommendations` are sorted by descending priority and, within equal
priority, by descending savings.  The `immediate` bucket is not: its entries
carry the anomaly severities (`severe`/`moderate`/`mild`), which are absent
from the engine's `high`/`medium`/`low` priority table, so the comparator
treats all of its entries as equal and the bucket is returned exactly in the
anomaly detector's order — in particular it is not reordered by savings
within equal priority. -/
theorem c6_amended_bucket_sorting (b : BillData) (anomalies : List Anomaly)
    (predictions : Option Predictions) :
    ((generateRecommendations b anomalies predictions).shortTerm).Chain' RecKeyGE ∧
    ((generateRecommendations b anomalies predictions).longTerm).Chain' RecKeyGE ∧
    (generateRecommendations b anomalies predictions).immediate =
      (if anomalies ≠ [] then generateAnomalyRecommendations anomalies else []) := by
  refine ⟨?_, ?_, ?_⟩
  · show (jsSortStable recCmp
      (generateUsageRecommendations b ++
        (match predictions with
         | some p => generatePredictiveRecommendations p
         | none => []))).Chain' RecKeyGE
    apply chain_keyGE_jsSortStable
    intro r hr
    rcases List.mem_append.mp hr with h | h
    · exact inTable_of_mem_usageRecs b r h
    · cases hp : predictions with
      | none => rw [hp] at h; exact absurd h (List.not_mem_nil r)
      | some p => rw [hp] at h; exact inTable_of_mem_predRecs p r h
  · show (jsSortStable recCmp (generateCostOptimizationRecommendations b)).Chain' RecKeyGE
    apply chain_keyGE_jsSortStable
    exact inTable_of_mem_costRecs b
  · show jsSortStable recCmp
      (if anomalies ≠ [] then generateAnomalyRecommendations anomalies else []) =
      (if anomalies ≠ [] then generateAnomalyRecommendations anomalies else [])
    by_cases han : anomalies = []
    · simp [han, jsSortStable]
    · rw [if_pos han, jsSortStable_anomalyRecs]

theorem detectAnomalies_c6record :
    detectAnomalies c6record =
      [{ type := "usage_anomaly", severity := Severity.moderate,
         title := "Increased Usage Pattern", impact := 26,
         recommendations := getUsageRecommendations 26 },
       { type := "cost_anomaly", severity := Severity.moderate,
         title := "Higher Bill Amount", impact := 36,
         recommendations := getCostRecommendations 36 }] := by
  norm_num [detectAnomalies, detectUsageAnomalies, detectCostAnomalies, usageChange,
    costChange, usagePrevious, costPrevious, detectPatternAnomalies,
    prioritizeAnomalies, jsSortStable, jsInsert, jsDiv, jsOr, c6record, getSeverity,
    usageThresholds, costThresholds, sevRank]
  exact ⟨rfl, rfl⟩

/-- Counterexample for C6 as stated: at the `c6record` inputs the `immediate`
bucket holds two recommendations of equal priority (`moderate`) whose savings
are in ascending order (3.9 then 5.4) — it is not sorted by descending savings
within equal priority. -/
theorem c6_counterexample :
    ((generateRecommendations c6record (detectAnomalies c6record) none).immediate.map
       Recommendation.priority = ["moderate", "moderate"]) ∧
    ((generateRecommendations c6record (detectAnomalies c6record) none).immediate.map
       Recommendation.savings = [39/10, 27/5]) ∧
    ¬ ((27 : ℚ)/5 ≤ (39 : ℚ)/10) := by
  have hne : detectAnomalies c6record ≠ [] := by
    rw [detectAnomalies_c6record]
    simp
  have him : (generateRecommendations c6record (detectAnomalies c6record) none).immediate =
      generateAnomalyRecommendations (detectAnomalies c6record) := by
    show jsSortStable recCmp
      (if detectAnomalies c6record ≠ [] then
        generateAnomalyRecommendations (detectAnomalies c6record) else []) = _
    rw [if_pos hne, jsSortStable_anomalyRecs]
  rw [him, detectAnomalies_c6record]
  refine ⟨rfl, ?_, by norm_num⟩
  norm_num [generateAnomalyRecommendations, calculateSavings, jsOr]

end Billing
